import Mathlib

/-
  Verification development for the Solr neural-search batch pipeline and
  query builders (scripts/document_indexing.py, scripts/vector_generation.py,
  scripts/neural_search_tester.py).  Python floats are represented by their
  source-text tokens: no claim settled here depends on the numeric value of
  a component, only on whether float() accepts the token.
-/

namespace SolrNS

/-! ## Python string primitives -/

/-- Characters Python strips as whitespace at the ends of a string
(ASCII whitespace; non-ASCII whitespace is outside the model). -/
def isPySpace (c : Char) : Bool :=
  c = ' ' || c = '\t' || c = '\n' || c = '\r' || c = '\x0b' || c = '\x0c'

/-- Python str.strip over a character list: drop whitespace at both ends. -/
def pyStrip (cs : List Char) : List Char :=
  ((cs.dropWhile isPySpace).reverse.dropWhile isPySpace).reverse

/-- Python str.split with separator a comma: split at every comma; the empty
string yields a single empty token, matching CPython. -/
def splitOnComma : List Char → List (List Char)
  | [] => [[]]
  | c :: rest =>
    if c = ',' then [] :: splitOnComma rest
    else
      match splitOnComma rest with
      | t :: ts => (c :: t) :: ts
      | [] => [[c]]

/-! ## Python float() acceptance (CPython float_from_string grammar) -/

/-- After the first digit of a digit-part, consume the remaining digits; an
underscore is allowed only between two digits (PEP 515). Returns the
unconsumed rest. -/
def munchDigits : List Char → List Char
  | '_' :: c :: rest =>
    if c.isDigit then munchDigits rest else '_' :: c :: rest
  | c :: rest => if c.isDigit then munchDigits rest else c :: rest
  | [] => []

/-- A digit-part requires a leading digit; on success returns the rest. -/
def parseDigitPart : List Char → Option (List Char)
  | c :: rest => if c.isDigit then some (munchDigits rest) else none
  | [] => none

/-- Mantissa of a Python float literal: a digit-part optionally followed by a
dot and an optional digit-part, or a dot followed by a digit-part. -/
def parseMantissa (cs : List Char) : Option (List Char) :=
  match parseDigitPart cs with
  | some rest =>
    match rest with
    | '.' :: rest2 =>
      match parseDigitPart rest2 with
      | some rest3 => some rest3
      | none => some rest2
    | _ => some rest
  | none =>
    match cs with
    | '.' :: rest =>
      match parseDigitPart rest with
      | some rest2 => some rest2
      | none => none
    | _ => none

/-- Optional exponent part, which must consume the whole rest of the token. -/
def parseExpEnd : List Char → Bool
  | [] => true
  | c :: rest =>
    if c = 'e' || c = 'E' then
      match rest with
      | s :: r =>
        (match parseDigitPart (if s = '+' || s = '-' then r else s :: r) with
         | some [] => true
         | _ => false)
      | [] => false
    else false

/-- A full decimal float token body: mantissa then optional exponent. -/
def isPyNumber (cs : List Char) : Bool :=
  match parseMantissa cs with
  | some rest => parseExpEnd rest
  | none => false

/-- Python float(token): strip whitespace, take an optional sign, then accept
inf, infinity or nan case-insensitively, or a decimal number. -/
def pyFloatValid (cs : List Char) : Bool :=
  let s := pyStrip cs
  let body :=
    match s with
    | c :: rest => if c = '+' || c = '-' then rest else c :: rest
    | [] => []
  let low := body.map Char.toLower
  if low = ['i', 'n', 'f'] || low = ['i', 'n', 'f', 'i', 'n', 'i', 't', 'y']
      || low = ['n', 'a', 'n'] then
    true
  else
    isPyNumber body

/-! ## Vector codec -/

/-- Vector-line decoding, document_indexing.py line 35:
vector = [float(w) for w in vector_string.strip().split(",")].
Succeeds iff float() accepts every comma-separated token of the stripped
line; components are kept as their source tokens. -/
def decodeVector (line : String) : Option (List String) :=
  let toks := splitOnComma (pyStrip line.toList)
  if toks.all pyFloatValid then some (toks.map List.asString) else none

/-- Vector-line encoding, vector_generation.py line 52: join the component
representations with commas. -/
def encodeLine (v : List String) : String :=
  String.intercalate "," v

/-! ## Index mode: document_indexing.py -/

def BATCH_SIZE : Nat := 100

structure IndexEntry where
  id : String
  text : String
  vector : List String
deriving DecidableEq, Repr

/-- Loop state of index_documents: batches already passed to solr.add, the
current accumulation list, and the count of skipped records. -/
structure IndexState where
  adds : List (List IndexEntry)
  documents : List IndexEntry
  skipped : Nat
deriving DecidableEq, Repr

/-- One iteration of the loop in index_documents (lines 32-56): parse the
vector line; on failure report and skip the record; on success append the
entry and flush to solr.add when the 0-based position is a nonzero multiple
of BATCH_SIZE. -/
def indexStep (s : IndexState) (p : Nat × String × String) : IndexState :=
  match decodeVector p.2.2 with
  | none => { s with skipped := s.skipped + 1 }
  | some vector =>
    let doc : IndexEntry :=
      { id := toString p.1, text := (pyStrip p.2.1.toList).asString, vector := vector }
    let documents := s.documents ++ [doc]
    if p.1 % BATCH_SIZE = 0 ∧ p.1 ≠ 0 then
      { adds := s.adds ++ [documents], documents := [], skipped := s.skipped }
    else
      { adds := s.adds, documents := documents, skipped := s.skipped }

/-- Result of a run of index_documents: the sequence of batches passed to
solr.add, in order, and the number of records skipped on parse errors. -/
structure IndexResult where
  adds : List (List IndexEntry)
  skipped : Nat
deriving DecidableEq, Repr

/-- After the loop, index the remaining documents when the list is
non-empty (document_indexing.py lines 58-61, guarded by list truthiness). -/
def finishRun (final : IndexState) : IndexResult :=
  if final.documents.isEmpty then
    { adds := final.adds, skipped := final.skipped }
  else
    { adds := final.adds ++ [final.documents], skipped := final.skipped }

/-- index_documents, document_indexing.py lines 20-63: iterate over
enumerate(zip(documents_file, vectors_file)), build an entry per record with
id the stringified position, flush on the in-loop batch condition, and flush
any non-empty remainder after the loop. -/
def index_documents (docs vecs : List String) : IndexResult :=
  finishRun (((docs.zip vecs).enum).foldl indexStep
    { adds := [], documents := [], skipped := 0 })

/-- Total number of entries passed to solr.add over a whole run. -/
def totalEntries (r : IndexResult) : Nat :=
  (r.adds.map List.length).sum

/-! ## Generate mode: vector_generation.py -/

/-- Batch chunking of the input lines, vector_generation.py line 42:
iter(lambda: tuple(islice(documents_file, BATCH_SIZE)), ()) yields successive
runs of at most n lines until the file is exhausted.  The n = 0 case is a
totality guard only; the script always uses BATCH_SIZE = 100. -/
def chunkList : Nat → List α → List (List α)
  | _, [] => []
  | 0, _ :: _ => []
  | n + 1, x :: rest =>
    ((x :: rest).take (n + 1)) :: chunkList (n + 1) ((x :: rest).drop (n + 1))
termination_by _ xs => xs.length
decreasing_by simp [List.length_drop]; omega

/-- Modelled contract of the external SentenceTransformer encode call
(vector_generation.py lines 55-59; the model is an external collaborator whose
contract is order-preserving and 1:1): the batch embedding is the
per-document embedding embedOne mapped over the batch, with components
already rendered as decimal strings. -/
def encode (embedOne : String → List String) (documents : List String) :
    List (List String) :=
  documents.map embedOne

/-- batch_encode_to_vectors, vector_generation.py lines 31-53: chunk the
input lines into batches of BATCH_SIZE, encode each batch, and append one
comma-joined line per vector, in order.  Returns the lines of the output
file. -/
def batch_encode_to_vectors (embedOne : String → List String)
    (docs : List String) : List String :=
  ((chunkList BATCH_SIZE docs).map
    (fun batch => (encode embedOne batch).map encodeLine)).flatten

/-! ## Query builders and response handling: neural_search_tester.py -/

/-- Python str() of a list, given the renderings of its elements: brackets
around the comma-space-joined elements. -/
def pyListStr (xs : List String) : String :=
  "[" ++ String.intercalate ", " xs ++ "]"

/-- The KNN query clause built at neural_search_tester.py lines 57, 85, 117:
an f-string interpolating topK and the vector list. -/
def knnClause (top_k : Nat) (vector : List String) : String :=
  "\x7b!knn f=vector topK=" ++ toString top_k ++ "\x7d" ++ pyListStr vector

/-- The lexical clause of the hybrid query, neural_search_tester.py
line 116: an edismax clause scoped to the lexical field, carrying the
lexical text. -/
def lexicalClause (lexical_field lexical_query : String) : String :=
  "\x7b!type=edismax qf=" ++ lexical_field ++ " v=\x27" ++ lexical_query
    ++ "\x27\x7d"

/-- JSON values, as produced by response.json() and built for request
bodies. -/
inductive Json where
  | null
  | num (n : Int)
  | str (s : String)
  | arr (elems : List Json)
  | obj (fields : List (String × Json))

/-- The query_data payload of test_knn_with_prefiltering,
neural_search_tester.py lines 83-87. -/
def test_knn_with_prefiltering_payload (vector : List String) (top_k : Nat)
    (filter_ids : List String) : Json :=
  Json.obj
    [("query", Json.str (knnClause top_k vector)),
     ("filter", Json.str ("id:(" ++ String.intercalate " " filter_ids ++ ")"))]

/-- The query_data payload of test_hybrid_search, neural_search_tester.py
lines 112-121: a boolean query whose should list holds the lexical clause
and the KNN clause. -/
def test_hybrid_search_payload (vector : List String) (top_k : Nat)
    (lexical_field lexical_query : String) : Json :=
  Json.obj
    [("query", Json.obj
      [("bool", Json.obj
        [("should", Json.arr
          [Json.str (lexicalClause lexical_field lexical_query),
           Json.str (knnClause top_k vector)])])])]

/-- Python subscript result with a string key: on a dict, look the key up
and raise KeyError when absent; on any other value, raise TypeError. -/
def jsonGet (j : Json) (key : String) : Except String Json :=
  match j with
  | Json.obj fields =>
    match fields.find? (fun kv => kv.1 == key) with
    | some kv => Except.ok kv.2
    | none => Except.error ("KeyError: " ++ key)
  | _ => Except.error ("TypeError: " ++ key)

/-- Python truthiness of a JSON value: None, 0, the empty string, the empty
list and the empty dict are falsy. -/
def pyTruthy : Json → Bool
  | Json.null => false
  | Json.num n => n != 0
  | Json.str s => s != ""
  | Json.arr xs => !xs.isEmpty
  | Json.obj fs => !fs.isEmpty

/-- Outcome of the HTTP exchange inside make_request: either an exception
raised as requests.exceptions.RequestException (connection failure, timeout,
or an HTTP error status via raise_for_status), or a parsed JSON body. -/
inductive HttpOutcome where
  | requestError (msg : String)
  | success (body : Json)

structure MakeRequestResult where
  result : Option Json
  errorReported : Bool

/-- make_request, neural_search_tester.py lines 28-44: a RequestException is
caught, printed and turned into None; otherwise the JSON body is returned. -/
def make_request (outcome : HttpOutcome) : MakeRequestResult :=
  match outcome with
  | HttpOutcome.requestError _ => { result := none, errorReported := true }
  | HttpOutcome.success body => { result := some body, errorReported := false }

/-- The result-printing block of test_basic_knn_query,
neural_search_tester.py lines 63-69: when the result is truthy, subscript
result by the response, numFound and docs fields and each doc by id, score
and text, with no exception handler around the block; then return the raw
result.  An Except.error models an exception propagating to the caller. -/
def processKnnResult (result : Option Json) : Except String (Option Json) :=
  match result with
  | none => Except.ok none
  | some j =>
    if pyTruthy j then do
      let resp ← jsonGet j "response"
      let _numFound ← jsonGet resp "numFound"
      let docsJson ← jsonGet resp "docs"
      let docs ←
        match docsJson with
        | Json.arr ds => Except.ok ds
        | _ => Except.error "TypeError: docs not iterable"
      let _ ← docs.foldlM
        (fun (_ : Unit) d => do
          let _id ← jsonGet d "id"
          let _score ← jsonGet d "score"
          let _text ← jsonGet d "text"
          Except.ok ())
        ()
      Except.ok (some j)
    else
      Except.ok (some j)

/-- test_basic_knn_query, neural_search_tester.py lines 46-69, from the point
the HTTP exchange's outcome is fixed: make_request then the result block. -/
def test_basic_knn_query (outcome : HttpOutcome) : Except String (Option Json) :=
  processKnnResult (make_request outcome).result

/-- The clause list under the query.bool.should path of a payload, as the
backend's boolean query parser reads it. -/
def shouldClauses (payload : Json) : Except String (List Json) := do
  let q ← jsonGet payload "query"
  let b ← jsonGet q "bool"
  let s ← jsonGet b "should"
  match s with
  | Json.arr xs => Except.ok xs
  | _ => Except.error "TypeError: should is not a list"

/-- Entries accumulated in a loop state: already flushed plus pending. -/
def entryCount (s : IndexState) : Nat :=
  (s.adds.map List.length).sum + s.documents.length

/-- 101 documents, one per line. -/
def batchBoundaryDocs : List String := (List.range 101).map (fun i => toString i)

/-- 101 well-formed vector lines. -/
def batchBoundaryVecs : List String := List.replicate 101 "1.0"

/-! ## Helper lemmas: batch accounting in index mode -/

theorem indexStep_entryCount (s : IndexState) (p : Nat × String × String) :
    entryCount (indexStep s p) =
      entryCount s + (if (decodeVector p.2.2).isSome then 1 else 0) := by
  unfold indexStep
  cases h : decodeVector p.2.2 with
  | none => simp [entryCount]
  | some v =>
    simp only [Option.isSome_some, if_pos]
    split
    · simp [entryCount]
      omega
    · simp [entryCount]
      omega

theorem indexStep_skipped (s : IndexState) (p : Nat × String × String) :
    (indexStep s p).skipped =
      s.skipped + (if (decodeVector p.2.2).isSome then 0 else 1) := by
  unfold indexStep
  cases h : decodeVector p.2.2 with
  | none => simp
  | some v =>
    simp only [Option.isSome_some, if_pos]
    split <;> simp

theorem indexLoop_counts (pairs : List (Nat × String × String)) :
    ∀ s : IndexState,
      entryCount (pairs.foldl indexStep s) =
        entryCount s + pairs.countP (fun p => (decodeVector p.2.2).isSome) ∧
      (pairs.foldl indexStep s).skipped =
        s.skipped + pairs.countP (fun p => !(decodeVector p.2.2).isSome) := by
  induction pairs with
  | nil => intro s; simp
  | cons p ps ih =>
    intro s
    rw [List.foldl_cons]
    obtain ⟨ih1, ih2⟩ := ih (indexStep s p)
    rw [List.countP_cons, List.countP_cons, ih1, ih2,
      indexStep_entryCount, indexStep_skipped]
    constructor <;> cases h : (decodeVector p.2.2).isSome <;> simp [h] <;> omega

theorem finishRun_totalEntries (s : IndexState) :
    totalEntries (finishRun s) = entryCount s := by
  unfold finishRun totalEntries entryCount
  cases hd : s.documents with
  | nil => simp [hd]
  | cons a l => simp [hd]

theorem finishRun_skipped (s : IndexState) :
    (finishRun s).skipped = s.skipped := by
  unfold finishRun
  split <;> rfl

theorem index_documents_counts (docs vecs : List String) :
    totalEntries (index_documents docs vecs) =
      (docs.zip vecs).enum.countP (fun p => (decodeVector p.2.2).isSome) ∧
    (index_documents docs vecs).skipped =
      (docs.zip vecs).enum.countP (fun p => !(decodeVector p.2.2).isSome) := by
  obtain ⟨h1, h2⟩ := indexLoop_counts ((docs.zip vecs).enum)
    { adds := [], documents := [], skipped := 0 }
  unfold index_documents
  rw [finishRun_totalEntries, finishRun_skipped, h1, h2]
  simp [entryCount]

/-! ## Helper lemmas: chunking in generate mode -/

theorem chunkList_flatten_aux {α : Type} (n : Nat) :
    ∀ (k : Nat) (xs : List α), xs.length ≤ k →
      (chunkList (n + 1) xs).flatten = xs := by
  intro k
  induction k with
  | zero =>
    intro xs hx
    have hnil : xs = [] := List.eq_nil_of_length_eq_zero (Nat.le_zero.mp hx)
    subst hnil
    simp [chunkList]
  | succ k ih =>
    intro xs hx
    match xs with
    | [] => simp [chunkList]
    | x :: rest =>
      rw [chunkList, List.flatten_cons,
        ih ((x :: rest).drop (n + 1))
          (by simp [List.length_drop] at hx ⊢; omega),
        List.take_append_drop]

theorem chunkList_flatten {α : Type} (n : Nat) (hn : 0 < n) (xs : List α) :
    (chunkList n xs).flatten = xs := by
  obtain ⟨m, rfl⟩ : ∃ m, n = m + 1 := ⟨n - 1, by omega⟩
  exact chunkList_flatten_aux m xs.length xs le_rfl

/-! ## Claim theorems -/

set_option maxRecDepth 100000 in
/-- Claim C1: with 101 documents paired with 101 well-formed vector lines,
index_documents performs exactly one solr.add call and its batch holds all
101 entries, exceeding BATCH_SIZE = 100.  The in-loop flush fires when the
0-based position is a nonzero multiple of BATCH_SIZE, which is one record
after the batch already holds BATCH_SIZE entries, so the claimed bound of
BATCH_SIZE per batch does not hold on the code. -/
theorem c1_first_batch_overflows :
    ((index_documents batchBoundaryDocs batchBoundaryVecs).adds.map List.length)
        = [101] ∧
      BATCH_SIZE = 100 := by
  exact ⟨by decide, rfl⟩

/-- Claim C2: for documents a, b, c paired with vector lines 1.0,2.0 then
x,2.0 then 3.0,4.0, indexing yields exactly two entries whose ids are the
original positions 0 and 2, reports exactly one skipped record, and the run
processes the record after the malformed one. -/
theorem c2_malformed_vector_skipped :
    ((index_documents ["a", "b", "c"]
        ["1.0,2.0", "x,2.0", "3.0,4.0"]).adds.flatten.map IndexEntry.id)
        = ["0", "2"] ∧
      (index_documents ["a", "b", "c"]
        ["1.0,2.0", "x,2.0", "3.0,4.0"]).skipped = 1 ∧
      totalEntries (index_documents ["a", "b", "c"]
        ["1.0,2.0", "x,2.0", "3.0,4.0"]) = 2 := by
  refine ⟨by decide, by decide, by decide⟩

/-- Claim C5: pairing stops at the shorter stream's exhaustion: when every
vector line is well-formed, the number of entries passed to solr.add is the
minimum of the two stream lengths, and no record is skipped or reported. -/
theorem c5_truncated_pairing (docs vecs : List String)
    (h : ∀ v ∈ vecs, (decodeVector v).isSome) :
    totalEntries (index_documents docs vecs) = min docs.length vecs.length ∧
      (index_documents docs vecs).skipped = 0 := by
  obtain ⟨h1, h2⟩ := index_documents_counts docs vecs
  have hall : ∀ p ∈ (docs.zip vecs).enum, (decodeVector p.2.2).isSome := by
    intro p hp
    obtain ⟨i, d, v⟩ := p
    rw [List.enum_eq_zip_range] at hp
    exact h v (List.of_mem_zip (List.of_mem_zip hp).2).2
  constructor
  · rw [h1, List.countP_eq_length.mpr hall, List.enum_length, List.length_zip]
  · rw [h2]
    exact List.countP_eq_zero.mpr (fun p hp => by simp [hall p hp])

/-- Claim C5 witness: five documents paired with three well-formed vector
lines yield exactly three entries and no skipped record. -/
theorem c5_truncated_pairing_witness :
    totalEntries (index_documents ["a", "b", "c", "d", "e"]
        ["1.0", "2.0", "3.0"]) = 3 ∧
      (index_documents ["a", "b", "c", "d", "e"]
        ["1.0", "2.0", "3.0"]).skipped = 0 := by
  have h := c5_truncated_pairing ["a", "b", "c", "d", "e"]
    ["1.0", "2.0", "3.0"] (by decide)
  simpa using h

/-- Claim C9: a run with zero input documents performs no solr.add call and
completes with no skipped record, whatever the vector stream holds. -/
theorem c9_empty_run_never_adds (vecs : List String) :
    (index_documents [] vecs).adds = [] ∧
      (index_documents [] vecs).skipped = 0 :=
  ⟨rfl, rfl⟩

/-- Claim C9 witness: the empty run against a non-empty vector stream. -/
theorem c9_empty_run_never_adds_witness :
    (index_documents [] ["1.0", "2.0"]).adds = [] ∧
      (index_documents [] ["1.0", "2.0"]).skipped = 0 :=
  c9_empty_run_never_adds ["1.0", "2.0"]

/-- Claim C3: in generate mode, the output vector file holds exactly one
line per input document and the line at position i is the encoded embedding
of the document at position i, across batch boundaries; a final partial
batch of fewer than BATCH_SIZE documents goes through the same path. -/
theorem c3_generate_preserves_order (embedOne : String → List String)
    (docs : List String) :
    batch_encode_to_vectors embedOne docs
      = docs.map (fun d => encodeLine (embedOne d)) := by
  have h1 : (chunkList BATCH_SIZE docs).flatten = docs :=
    chunkList_flatten BATCH_SIZE (by decide) docs
  conv_rhs => rw [← h1, List.map_flatten]
  unfold batch_encode_to_vectors encode
  simp only [List.map_map]
  rfl

/-- Claim C3 witness: three documents, with an embedder that tags each
document, come out as three lines in input order. -/
theorem c3_generate_preserves_order_witness :
    batch_encode_to_vectors (fun d => [d, "1.0"]) ["a", "b", "c"]
      = ["a,1.0", "b,1.0", "c,1.0"] := by
  have h := c3_generate_preserves_order (fun d => [d, "1.0"]) ["a", "b", "c"]
  rw [h]
  decide

/-- Claim C6 counterexample: a truthy JSON response body with no response
field makes test_basic_knn_query raise KeyError to its caller instead of
degrading to an empty result. -/
theorem c6_malformed_response_raises :
    test_basic_knn_query
        (HttpOutcome.success (Json.obj [("responseHeader", Json.num 0)]))
      = Except.error "KeyError: response" := rfl

/-- Claim C6 amended: when the HTTP exchange itself fails (connection
error, timeout, or an error status raised by raise_for_status),
test_basic_knn_query degrades to a None result with the error reported and
raises nothing; the guarantee does not extend to well-formed JSON responses
of unexpected shape, which raise KeyError to the caller. -/
theorem c6_request_failure_degrades (msg : String) :
    test_basic_knn_query (HttpOutcome.requestError msg) = Except.ok none ∧
      (make_request (HttpOutcome.requestError msg)).errorReported = true :=
  ⟨rfl, rfl⟩

/-- Claim C6 witness: a concrete timeout degrades to a None result. -/
theorem c6_request_failure_degrades_witness :
    test_basic_knn_query (HttpOutcome.requestError "timed out")
        = Except.ok none ∧
      (make_request (HttpOutcome.requestError "timed out")).errorReported
        = true :=
  c6_request_failure_degrades "timed out"

/-- Claim C7: for every vector, topK and id sequence, the filtered-KNN
payload's filter clause is exactly id:( followed by the ids joined by
single spaces in input order followed by ), and its query clause is the
KNN clause carrying the given topK; in particular ids 0 and 1 give
id:(0 1). -/
theorem c7_filtered_knn_payload (vector : List String) (top_k : Nat)
    (filter_ids : List String) :
    test_knn_with_prefiltering_payload vector top_k filter_ids
      = Json.obj
          [("query", Json.str ("\x7b!knn f=vector topK=" ++ toString top_k
              ++ "\x7d" ++ pyListStr vector)),
           ("filter", Json.str ("id:(" ++ String.intercalate " " filter_ids
              ++ ")"))] ∧
      jsonGet (test_knn_with_prefiltering_payload vector 3 ["0", "1"]) "filter"
        = Except.ok (Json.str "id:(0 1)") :=
  ⟨rfl, rfl⟩

/-- Claim C7 witness: the payload at vector 0.1, 0.2, topK 3 and ids 0, 1. -/
theorem c7_filtered_knn_payload_witness :
    jsonGet (test_knn_with_prefiltering_payload ["0.1", "0.2"] 3 ["0", "1"])
        "filter"
      = Except.ok (Json.str "id:(0 1)") :=
  (c7_filtered_knn_payload ["0.1", "0.2"] 3 ["0", "1"]).2

/-- Claim C8: the hybrid payload carries, under the query.bool.should path,
exactly two sub-clauses: the edismax lexical clause scoped to the given
field with the given lexical text, then the KNN clause carrying the given
topK; the bool object holds the should key alone, so neither sub-clause is
mandatory. -/
theorem c8_hybrid_payload (vector : List String) (top_k : Nat)
    (lexical_field lexical_query : String) :
    shouldClauses
        (test_hybrid_search_payload vector top_k lexical_field lexical_query)
      = Except.ok
          [Json.str (lexicalClause lexical_field lexical_query),
           Json.str (knnClause top_k vector)] ∧
      lexicalClause lexical_field lexical_query
        = "\x7b!type=edismax qf=" ++ lexical_field ++ " v=\x27"
            ++ lexical_query ++ "\x27\x7d" ∧
      knnClause top_k vector
        = "\x7b!knn f=vector topK=" ++ toString top_k ++ "\x7d"
            ++ pyListStr vector ∧
      jsonGet (test_hybrid_search_payload vector top_k lexical_field
          lexical_query) "query"
        = Except.ok (Json.obj [("bool", Json.obj [("should", Json.arr
            [Json.str (lexicalClause lexical_field lexical_query),
             Json.str (knnClause top_k vector)])])]) :=
  ⟨rfl, rfl, rfl, rfl⟩

/-- Claim C8 witness: the hybrid payload at a concrete vector, topK 3,
field text and lexical text bank. -/
theorem c8_hybrid_payload_witness :
    shouldClauses (test_hybrid_search_payload ["0.1"] 3 "text" "bank")
      = Except.ok
          [Json.str "\x7b!type=edismax qf=text v=\x27bank\x27\x7d",
           Json.str "\x7b!knn f=vector topK=3\x7d[0.1]"] := by
  have h := (c8_hybrid_payload ["0.1"] 3 "text" "bank").1
  rw [h]
  rfl

/-- Claim C10: decoding a vector line fails exactly when float() rejects
one of the comma-separated tokens of the stripped line; nan, inf, -inf,
exponent notation, and whitespace-padded tokens are all accepted - so the
line nan,inf is indexed rather than skipped - while an empty token, as
produced by a blank line, is rejected. -/
theorem c10_decode_fails_iff_bad_token :
    (∀ line : String,
        decodeVector line = none ↔
          ∃ t ∈ splitOnComma (pyStrip line.toList), ¬ pyFloatValid t) ∧
      pyFloatValid "nan".toList ∧
      pyFloatValid "inf".toList ∧
      pyFloatValid "-inf".toList ∧
      pyFloatValid "1e-3".toList ∧
      pyFloatValid " 2.0 ".toList ∧
      ¬ pyFloatValid "".toList ∧
      (decodeVector "nan,inf").isSome ∧
      totalEntries (index_documents ["d"] ["nan,inf"]) = 1 ∧
      (index_documents ["d"] ["nan,inf"]).skipped = 0 ∧
      decodeVector "" = none := by
  refine ⟨?_, by decide, by decide, by decide, by decide, by decide,
    by decide, by decide, by decide, by decide, by decide⟩
  intro line
  simp only [decodeVector]
  split
  · next hall =>
    rw [List.all_eq_true] at hall
    constructor
    · intro hcontra
      exact absurd hcontra (by simp)
    · rintro ⟨t, ht, hbad⟩
      exact absurd (hall t ht) hbad
  · next hall =>
    rw [List.all_eq_true] at hall
    push_neg at hall
    obtain ⟨t, ht, hbad⟩ := hall
    constructor
    · intro _
      exact ⟨t, ht, by simpa using hbad⟩
    · intro _
      rfl

/-- Claim C10 witness: the token x makes the line x,2.0 fail to decode. -/
theorem c10_decode_fails_iff_bad_token_witness :
    decodeVector "x,2.0" = none :=
  (c10_decode_fails_iff_bad_token.1 "x,2.0").mpr
    ⟨['x'], by decide, by decide⟩

end SolrNS
